import Mathlib

/-!
Verification development for the transcribe streaming SDK's protocol core:
the typed-event dispatcher (`TranscribeStreamingEventParser`), the HTTP-level
exception mapper (`TranscribeStreamingResponseParser`), and the outbound
audio-event encoder (`AudioEventSerializer`), embedded shallowly from
`src/amazon_transcribe/deserialize.py`, `src/amazon_transcribe/model.py` and
`src/amazon_transcribe/serialize.py`.

Python values that come out of `json.loads` are modelled by the inductive
`Json` (Python `None` and JSON `null` are both `Json.null`, exactly as in
Python where both are the single `None` object).  A byte payload or body is
represented by the outcome of `json.loads` on it: `some j` when it parses to
the value `j`, `none` when `json.loads` raises a `JSONDecodeError`.
Python statements that can raise are embedded in the `Except PyRaise` monad.
-/

namespace AmazonTranscribe

/-- A decoded JSON value, doubling as the universe of Python values the
parsers manipulate (`Json.null` is Python `None`).  Numbers are carried
opaquely (the code never computes with them), so `Int` mantissas suffice
for every concrete input used here. -/
inductive Json where
  | null
  | bool (b : Bool)
  | num (n : Int)
  | str (s : String)
  | arr (elems : List Json)
  | obj (members : List (String × Json))

/-- Lookup in a decoded JSON object, i.e. Python `dict` indexing on the
string-keyed dicts produced by `json.loads` (first binding wins; `json.loads`
keeps only the last duplicate key, so its dicts have unique keys anyway). -/
def jsonLookup : List (String × Json) → String → Option Json
  | [], _ => none
  | (k, v) :: rest, key => if k = key then some v else jsonLookup rest key

/-- Python `headers.get(key)` on a string-valued header mapping. -/
def headerGet : List (String × String) → String → Option String
  | [], _ => none
  | (k, v) :: rest, key => if k = key then some v else headerGet rest key

/-- The `Response` object handed to the response parser: HTTP status code
plus the response headers (`src/amazon_transcribe/deserialize.py` uses only
these two attributes). -/
structure Response where
  status_code : Int
  headers : List (String × String)

/-- A constructed service-exception object, one constructor per exception
class the parsers instantiate (`amazon_transcribe/exceptions.py` classes:
the base `ServiceException`, the six specific subclasses, and
`UnknownServiceException` which additionally carries the HTTP status code
and the raw error-code string, per the spec's §3 `Unknown` kind). -/
inductive ServiceException where
  | serviceException (message : Json)
  | badRequestException (message : Json)
  | conflictException (message : Json)
  | internalFailureException (message : Json)
  | limitExceededException (message : Json)
  | serviceUnavailableException (message : Json)
  | serializationException (message : Json)
  | unknownServiceException (status_code : Int) (error_code : String) (message : Json)

/-- The spec's §3 classification of service exceptions, plus `base` for an
instance of the base `ServiceException` class itself (which the spec's closed
kind set does not name). -/
inductive ExceptionKind where
  | base
  | badRequest
  | conflict
  | internalFailure
  | limitExceeded
  | serviceUnavailable
  | serialization
  | unknown
deriving DecidableEq

/-- The kind (Python class) of a constructed service exception. -/
def ServiceException.kind : ServiceException → ExceptionKind
  | .serviceException _ => .base
  | .badRequestException _ => .badRequest
  | .conflictException _ => .conflict
  | .internalFailureException _ => .internalFailure
  | .limitExceededException _ => .limitExceeded
  | .serviceUnavailableException _ => .serviceUnavailable
  | .serializationException _ => .serialization
  | .unknownServiceException _ _ _ => .unknown

/-- The message carried by a constructed service exception. -/
def ServiceException.message : ServiceException → Json
  | .serviceException m => m
  | .badRequestException m => m
  | .conflictException m => m
  | .internalFailureException m => m
  | .limitExceededException m => m
  | .serviceUnavailableException m => m
  | .serializationException m => m
  | .unknownServiceException _ _ m => m

/-- An exception escaping an embedded Python computation: the builtin
errors the parsing code can hit, plus `raised` for an explicitly raised
service exception (`raise self._parse_event_exception(raw_event)`). -/
inductive PyRaise where
  | typeError
  | attributeError
  | keyError
  | jsonDecodeError
  | raised (e : ServiceException)

/-- Python equality `element == key` between a decoded JSON value and a
string: only a `str` of the same characters compares equal. -/
def strEq (j : Json) (k : String) : Bool :=
  match j with
  | .str s => s = k
  | _ => false

/-- Whether `needle` is a prefix of `hay` (character lists). -/
def startsWithChars : List Char → List Char → Bool
  | [], _ => true
  | _ :: _, [] => false
  | a :: as, b :: bs => a = b && startsWithChars as bs

/-- Whether `needle` occurs as a contiguous substring of `hay`, i.e.
Python `needle in hay` on strings. -/
def hasSubstringChars (needle : List Char) : List Char → Bool
  | [] => needle.isEmpty
  | c :: rest => startsWithChars needle (c :: rest) || hasSubstringChars needle rest

/-- Python `str.split(sep)` for a single-character separator: the list of
maximal separator-free chunks, including empty ones (always nonempty). -/
def pySplit (sep : Char) : List Char → List (List Char)
  | [] => [[]]
  | c :: cs =>
    if c = sep then [] :: pySplit sep cs
    else
      match pySplit sep cs with
      | [] => [[c]]
      | r :: rs => (c :: r) :: rs

/-- Python `key in value` for `key` a string: dict key membership, list
element membership, substring test on strings; `TypeError` on the
non-container values (`None`, booleans, numbers). -/
def pyIn (j : Json) (k : String) : Except PyRaise Bool :=
  match j with
  | .obj ms => .ok (jsonLookup ms k).isSome
  | .arr es => .ok (es.any (fun e => strEq e k))
  | .str s => .ok (hasSubstringChars k.toList s.toList)
  | _ => .error .typeError

/-- Python `value[key]` for `key` a string: dict lookup (`KeyError` when
absent); `TypeError` on every non-dict value. -/
def pySubscript (j : Json) (k : String) : Except PyRaise Json :=
  match j with
  | .obj ms =>
    match jsonLookup ms k with
    | some v => .ok v
    | none => .error .keyError
  | _ => .error .typeError

/-- Python `value.get(key, fallback)`: defined on dicts only, `AttributeError`
on every other value (including `None`). -/
def pyGet (j : Json) (k : String) (fallback : Json) : Except PyRaise Json :=
  match j with
  | .obj ms => .ok ((jsonLookup ms k).getD fallback)
  | _ => .error .attributeError

/-- Python `value.get(key)` (one-argument form): absent keys give `None`. -/
def pyGetOpt (j : Json) (k : String) : Except PyRaise Json :=
  pyGet j k Json.null

/-- Python iteration `[f(e) for e in value]`'s element source: list elements,
dict keys, the characters of a string; `TypeError` on `None`, booleans and
numbers. -/
def pyIter (j : Json) : Except PyRaise (List Json) :=
  match j with
  | .arr es => .ok es
  | .obj ms => .ok (ms.map (fun p => Json.str p.1))
  | .str s => .ok (s.toList.map (fun c => Json.str (String.mk [c])))
  | _ => .error .typeError

/-- Python `value.items()`: defined on dicts only, `AttributeError`
otherwise. -/
def pyItems (j : Json) : Except PyRaise (List (String × Json)) :=
  match j with
  | .obj ms => .ok ms
  | _ => .error .attributeError

namespace TranscribeStreamingResponseParser

/-- `TranscribeStreamingResponseParser._get_error_code`: the
`x-amzn-errortype` header value split at `:` keeping the first chunk, or
the literal `"Unknown"` when the header is absent. -/
def get_error_code (http_response : Response) : String :=
  match headerGet http_response.headers "x-amzn-errortype" with
  | none => "Unknown"
  | some v => String.mk ((pySplit ':' v.toList).headD [])

/-- `TranscribeStreamingResponseParser._get_error_message`: best-effort
extraction of a `Message` (then `message`) entry from the JSON-decoded body,
with a fixed generic message when the body does not decode or has neither
key.  The `in` / `[...]` steps raise `TypeError` when the body decodes to a
non-container or non-dict value, exactly as in the source. -/
def get_error_message (body_bytes : Option Json) : Except PyRaise Json :=
  match body_bytes with
  | none => .ok (Json.str "An unknown error was returned by the service")
  | some parsed_body => do
    let hasMessageKey ← pyIn parsed_body "Message"
    if hasMessageKey then
      pySubscript parsed_body "Message"
    else
      let hasLowerKey ← pyIn parsed_body "message"
      if hasLowerKey then
        pySubscript parsed_body "message"
      else
        .ok (Json.str "An unknown error was returned by the service")

/-- `TranscribeStreamingResponseParser.parse_exception`: classify the error
code through the fixed six-entry chain, falling through to
`UnknownServiceException` carrying the status code and the code string. -/
def parse_exception (http_response : Response) (body_bytes : Option Json) :
    Except PyRaise ServiceException := do
  let error_code := get_error_code http_response
  let error_message ← get_error_message body_bytes
  if error_code = "BadRequestException" then
    pure (.badRequestException error_message)
  else if error_code = "ConflictException" then
    pure (.conflictException error_message)
  else if error_code = "InternalFailureException" then
    pure (.internalFailureException error_message)
  else if error_code = "LimitExceededException" then
    pure (.limitExceededException error_message)
  else if error_code = "ServiceUnavailableException" then
    pure (.serviceUnavailableException error_message)
  else if error_code = "SerializationException" then
    pure (.serializationException error_message)
  else
    pure (.unknownServiceException http_response.status_code error_code error_message)

end TranscribeStreamingResponseParser

/-- `model.Item`: flat record; every field stores the raw extracted value
(`Json.null` when the payload key is absent). -/
structure Item where
  start_time : Json
  end_time : Json
  item_type : Json
  content : Json
  vocabulary_filter_match : Json
  speaker : Json
  confidence : Json
  stable : Json

/-- `model.Entity`: flat record of raw extracted values. -/
structure Entity where
  start_time : Json
  end_time : Json
  category : Json
  type : Json
  content : Json
  confidence : Json

/-- `model.LanguageWithScore`. -/
structure LanguageWithScore where
  language_code : Json
  score : Json

/-- `model.Alternative`: `items` is a plain list (the parser always builds
one), `entities` is `none` exactly when the payload key was absent. -/
structure Alternative where
  transcript : Json
  items : List Item
  entities : Option (List Entity)

/-- `model.Result`: `alternatives` and `language_identification` are `none`
exactly when absent from the payload; `language_code` is never set by the
event parser (constructor default `None`).  An element of
`language_identification` is itself `none` when the corresponding array
entry was JSON `null` (`_parse_language_with_score` returns `None` there). -/
structure Result where
  result_id : Json
  start_time : Json
  end_time : Json
  is_partial : Json
  alternatives : Option (List Alternative)
  channel_id : Json
  language_code : Json
  language_identification : Option (List (Option LanguageWithScore))

/-- `model.Transcript`. -/
structure Transcript where
  results : List Result

/-- `model.TranscriptEvent`. -/
structure TranscriptEvent where
  transcript : Transcript

/-- `model.CallAnalyticsItem`. -/
structure CallAnalyticsItem where
  begin_offset_millis : Json
  end_offset_millis : Json
  item_type : Json
  content : Json
  confidence : Json
  vocabulary_filter_match : Json
  stable : Json

/-- `model.CallAnalyticsEntity`. -/
structure CallAnalyticsEntity where
  begin_offset_millis : Json
  end_offset_millis : Json
  category : Json
  entity_type : Json
  content : Json
  confidence : Json

/-- `model.CharacterOffsets` (the Python attribute `end` is spelled
`end_` here because `end` is a Lean keyword). -/
structure CharacterOffsets where
  begin : Json
  end_ : Json

/-- `model.IssueDetected`. -/
structure IssueDetected where
  character_offsets : CharacterOffsets

/-- `model.UtteranceEvent`. -/
structure UtteranceEvent where
  utterance_id : Json
  is_partial : Json
  participant_role : Json
  begin_offset_millis : Json
  end_offset_millis : Json
  transcript : Json
  items : Option (List CallAnalyticsItem)
  entities : Option (List CallAnalyticsEntity)
  sentiment : Json
  issues_detected : Option (List IssueDetected)

/-- `model.TimestampRange`. -/
structure TimestampRange where
  begin_offset_millis : Json
  end_offset_millis : Json

/-- `model.PointsOfInterest`. -/
structure PointsOfInterest where
  timestamp_ranges : List TimestampRange

/-- `model.CategoryEvent`: `matched_details` is an insertion-ordered
mapping, kept as a key-value list. -/
structure CategoryEvent where
  matched_categories : List Json
  matched_details : List (String × PointsOfInterest)

/-- The union of event objects `TranscribeStreamingEventParser.parse` can
return (its `Optional[BaseEvent]` result). -/
inductive BaseEvent where
  | transcriptEvent (e : TranscriptEvent)
  | utteranceEvent (e : UtteranceEvent)
  | categoryEvent (e : CategoryEvent)

/-- A decoded event-stream frame as the dispatcher receives it: the header
mapping (the reserved headers are strings) and the payload, given by the
outcome of `json.loads` on the payload bytes (`none` = `JSONDecodeError`). -/
structure RawEvent where
  headers : List (String × String)
  payload : Option Json

/-- Modelled from the spec: the attribute namespace of the
`amazon_transcribe.exceptions` module, which is not under `src/` (only its
importers are).  Per §3 the service-exception classes form the closed kind
set BadRequest, Conflict, InternalFailure, LimitExceeded, ServiceUnavailable,
Serialization, Unknown, and per §9 the dispatcher's lookup is a reflective
attribute lookup against this exception-class namespace; so the namespace is
modelled as containing exactly the base `ServiceException`, the six specific
classes, and `UnknownServiceException`.  Further attributes of the real
module are outside the model. -/
inductive ExceptionClass where
  | serviceExceptionCls
  | badRequestCls
  | conflictCls
  | internalFailureCls
  | limitExceededCls
  | serviceUnavailableCls
  | serializationCls
  | unknownServiceCls
deriving DecidableEq

/-- Modelled from the spec: `getattr(transcribe_exceptions, name,
ServiceException)` over the namespace of `ExceptionClass`; an unknown
attribute name yields the `ServiceException` default passed by the
dispatcher. -/
def getattr_transcribe_exceptions (name : String) : ExceptionClass :=
  if name = "ServiceException" then .serviceExceptionCls
  else if name = "BadRequestException" then .badRequestCls
  else if name = "ConflictException" then .conflictCls
  else if name = "InternalFailureException" then .internalFailureCls
  else if name = "LimitExceededException" then .limitExceededCls
  else if name = "ServiceUnavailableException" then .serviceUnavailableCls
  else if name = "SerializationException" then .serializationCls
  else if name = "UnknownServiceException" then .unknownServiceCls
  else .serviceExceptionCls

/-- Modelled from the spec: calling the looked-up class with the single
message argument, `exception_cls(exception_msg)`.  Every message-only class
constructs normally; `UnknownServiceException` requires status code and
error code besides the message (§3), so a one-argument call raises
`TypeError`. -/
def construct1 : ExceptionClass → Json → Except PyRaise ServiceException
  | .serviceExceptionCls, m => .ok (.serviceException m)
  | .badRequestCls, m => .ok (.badRequestException m)
  | .conflictCls, m => .ok (.conflictException m)
  | .internalFailureCls, m => .ok (.internalFailureException m)
  | .limitExceededCls, m => .ok (.limitExceededException m)
  | .serviceUnavailableCls, m => .ok (.serviceUnavailableException m)
  | .serializationCls, m => .ok (.serializationException m)
  | .unknownServiceCls, _ => .error .typeError

namespace TranscribeStreamingEventParser

/-- `_parse_item`: field extraction in source order. -/
def parse_item (current_node : Json) : Except PyRaise Item := do
  let start_time ← pyGetOpt current_node "StartTime"
  let end_time ← pyGetOpt current_node "EndTime"
  let item_type ← pyGetOpt current_node "Type"
  let content ← pyGetOpt current_node "Content"
  let vocabulary_filter_match ← pyGetOpt current_node "VocabularyFilterMatch"
  let speaker ← pyGetOpt current_node "Speaker"
  let confidence ← pyGetOpt current_node "Confidence"
  let stable ← pyGetOpt current_node "Stable"
  pure ⟨start_time, end_time, item_type, content, vocabulary_filter_match,
        speaker, confidence, stable⟩

/-- `_parse_item_list`: a bare comprehension with no `None` guard, so a
missing `Items` key (`current_node = None`) raises `TypeError`. -/
def parse_item_list (current_node : Json) : Except PyRaise (List Item) := do
  let es ← pyIter current_node
  es.mapM parse_item

/-- `_parse_entity`. -/
def parse_entity (current_node : Json) : Except PyRaise Entity := do
  let start_time ← pyGetOpt current_node "StartTime"
  let end_time ← pyGetOpt current_node "EndTime"
  let category ← pyGetOpt current_node "Category"
  let type ← pyGetOpt current_node "Type"
  let content ← pyGetOpt current_node "Content"
  let confidence ← pyGetOpt current_node "Confidence"
  pure ⟨start_time, end_time, category, type, content, confidence⟩

/-- `_parse_entity_list`: `None` guarded, absent key gives `None`. -/
def parse_entity_list (current_node : Json) :
    Except PyRaise (Option (List Entity)) :=
  match current_node with
  | .null => .ok none
  | node => do
    let es ← pyIter node
    let xs ← es.mapM parse_entity
    pure (some xs)

/-- `_parse_language_with_score`: returns `None` on a `null` node. -/
def parse_language_with_score (current_node : Json) :
    Except PyRaise (Option LanguageWithScore) :=
  match current_node with
  | .null => .ok none
  | node => do
    let language_code ← pyGetOpt node "LanguageCode"
    let score ← pyGetOpt node "Score"
    pure (some ⟨language_code, score⟩)

/-- `_parse_language_identification_list`: `None` guarded. -/
def parse_language_identification_list (current_node : Json) :
    Except PyRaise (Option (List (Option LanguageWithScore))) :=
  match current_node with
  | .null => .ok none
  | node => do
    let es ← pyIter node
    let xs ← es.mapM parse_language_with_score
    pure (some xs)

/-- `_parse_alternative`: keyword arguments evaluated in source order. -/
def parse_alternative (current_node : Json) : Except PyRaise Alternative := do
  let transcript ← pyGetOpt current_node "Transcript"
  let itemsNode ← pyGetOpt current_node "Items"
  let items ← parse_item_list itemsNode
  let entitiesNode ← pyGetOpt current_node "Entities"
  let entities ← parse_entity_list entitiesNode
  pure ⟨transcript, items, entities⟩

/-- `_parse_alternative_list`: `None` guarded. -/
def parse_alternative_list (current_node : Json) :
    Except PyRaise (Option (List Alternative)) :=
  match current_node with
  | .null => .ok none
  | node => do
    let es ← pyIter node
    let xs ← es.mapM parse_alternative
    pure (some xs)

/-- `_parse_result`: the two list-valued fields are computed first, then the
remaining fields are extracted in the order of the keyword arguments of the
`Result(...)` call; `language_code` keeps its constructor default `None`. -/
def parse_result (current_node : Json) : Except PyRaise Result := do
  let alternativesNode ← pyGetOpt current_node "Alternatives"
  let alternatives ← parse_alternative_list alternativesNode
  let liNode ← pyGetOpt current_node "LanguageIdentification"
  let language_identification ← parse_language_identification_list liNode
  let result_id ← pyGetOpt current_node "ResultId"
  let start_time ← pyGetOpt current_node "StartTime"
  let end_time ← pyGetOpt current_node "EndTime"
  let is_partial ← pyGetOpt current_node "IsPartial"
  let channel_id ← pyGetOpt current_node "ChannelId"
  pure ⟨result_id, start_time, end_time, is_partial, alternatives,
        channel_id, Json.null, language_identification⟩

/-- `_parse_result_list`: bare comprehension, no `None` guard. -/
def parse_result_list (current_node : Json) : Except PyRaise (List Result) := do
  let es ← pyIter current_node
  es.mapM parse_result

/-- `_parse_transcript`. -/
def parse_transcript (current_node : Json) : Except PyRaise Transcript := do
  let resultsNode ← pyGetOpt current_node "Results"
  let results ← parse_result_list resultsNode
  pure ⟨results⟩

/-- `_parse_transcript_event`. -/
def parse_transcript_event (current_node : Json) :
    Except PyRaise TranscriptEvent := do
  let transcriptNode ← pyGetOpt current_node "Transcript"
  let transcript ← parse_transcript transcriptNode
  pure ⟨transcript⟩

/-- `_parse_character_offsets`: no `None` guard. -/
def parse_character_offsets (current_node : Json) :
    Except PyRaise CharacterOffsets := do
  let b ← pyGetOpt current_node "Begin"
  let e ← pyGetOpt current_node "End"
  pure ⟨b, e⟩

/-- `_parse_issue_detected`. -/
def parse_issue_detected (current_node : Json) :
    Except PyRaise IssueDetected := do
  let offsetsNode ← pyGetOpt current_node "CharacterOffsets"
  let character_offsets ← parse_character_offsets offsetsNode
  pure ⟨character_offsets⟩

/-- `_parse_issues_detected_list`: `None` guarded. -/
def parse_issues_detected_list (current_node : Json) :
    Except PyRaise (Option (List IssueDetected)) :=
  match current_node with
  | .null => .ok none
  | node => do
    let es ← pyIter node
    let xs ← es.mapM parse_issue_detected
    pure (some xs)

/-- `_parse_call_analytics_entity`. -/
def parse_call_analytics_entity (current_node : Json) :
    Except PyRaise CallAnalyticsEntity := do
  let begin_offset_millis ← pyGetOpt current_node "BeginOffsetMillis"
  let end_offset_millis ← pyGetOpt current_node "EndOffsetMillis"
  let category ← pyGetOpt current_node "Category"
  let entity_type ← pyGetOpt current_node "Type"
  let content ← pyGetOpt current_node "Content"
  let confidence ← pyGetOpt current_node "Confidence"
  pure ⟨begin_offset_millis, end_offset_millis, category, entity_type,
        content, confidence⟩

/-- `_parse_call_analytics_entity_list`: `None` guarded. -/
def parse_call_analytics_entity_list (current_node : Json) :
    Except PyRaise (Option (List CallAnalyticsEntity)) :=
  match current_node with
  | .null => .ok none
  | node => do
    let es ← pyIter node
    let xs ← es.mapM parse_call_analytics_entity
    pure (some xs)

/-- `_parse_call_analytics_item`. -/
def parse_call_analytics_item (current_node : Json) :
    Except PyRaise CallAnalyticsItem := do
  let begin_offset_millis ← pyGetOpt current_node "BeginOffsetMillis"
  let end_offset_millis ← pyGetOpt current_node "EndOffsetMillis"
  let item_type ← pyGetOpt current_node "Type"
  let content ← pyGetOpt current_node "Content"
  let confidence ← pyGetOpt current_node "Confidence"
  let vocabulary_filter_match ← pyGetOpt current_node "VocabularyFilterMatch"
  let stable ← pyGetOpt current_node "Stable"
  pure ⟨begin_offset_millis, end_offset_millis, item_type, content,
        confidence, vocabulary_filter_match, stable⟩

/-- `_parse_call_analytics_item_list`: `None` guarded. -/
def parse_call_analytics_item_list (current_node : Json) :
    Except PyRaise (Option (List CallAnalyticsItem)) :=
  match current_node with
  | .null => .ok none
  | node => do
    let es ← pyIter node
    let xs ← es.mapM parse_call_analytics_item
    pure (some xs)

/-- `_parse_utterance_event`: keyword-free positional construction in
source order; the three list fields go through the guarded list parsers. -/
def parse_utterance_event (current_node : Json) :
    Except PyRaise UtteranceEvent := do
  let utterance_id ← pyGetOpt current_node "UtteranceId"
  let is_partial ← pyGetOpt current_node "IsPartial"
  let participant_role ← pyGetOpt current_node "ParticipantRole"
  let begin_offset_millis ← pyGetOpt current_node "BeginOffsetMillis"
  let end_offset_millis ← pyGetOpt current_node "EndOffsetMillis"
  let transcript ← pyGetOpt current_node "Transcript"
  let itemsNode ← pyGetOpt current_node "Items"
  let items ← parse_call_analytics_item_list itemsNode
  let entitiesNode ← pyGetOpt current_node "Entities"
  let entities ← parse_call_analytics_entity_list entitiesNode
  let sentiment ← pyGetOpt current_node "Sentiment"
  let issuesNode ← pyGetOpt current_node "IssuesDetected"
  let issues_detected ← parse_issues_detected_list issuesNode
  pure ⟨utterance_id, is_partial, participant_role, begin_offset_millis,
        end_offset_millis, transcript, items, entities, sentiment,
        issues_detected⟩

/-- `_parse_category`: the identity on the node. -/
def parse_category (current_node : Json) : Json :=
  current_node

/-- `_parse_matched_categories_list`: bare comprehension, no `None` guard. -/
def parse_matched_categories_list (current_node : Json) :
    Except PyRaise (List Json) := do
  let es ← pyIter current_node
  pure (es.map parse_category)

/-- `_parse_timestamp_range`. -/
def parse_timestamp_range (current_node : Json) :
    Except PyRaise TimestampRange := do
  let begin_offset_millis ← pyGetOpt current_node "BeginOffsetMillis"
  let end_offset_millis ← pyGetOpt current_node "EndOffsetMillis"
  pure ⟨begin_offset_millis, end_offset_millis⟩

/-- `_parse_timestamp_ranges`: bare comprehension, no `None` guard. -/
def parse_timestamp_ranges (current_node : Json) :
    Except PyRaise (List TimestampRange) := do
  let es ← pyIter current_node
  es.mapM parse_timestamp_range

/-- `_parse_points_of_interest`. -/
def parse_points_of_interest (current_node : Json) :
    Except PyRaise PointsOfInterest := do
  let rangesNode ← pyGetOpt current_node "TimestampRanges"
  let timestamp_ranges ← parse_timestamp_ranges rangesNode
  pure ⟨timestamp_ranges⟩

/-- `_parse_matched_details_dict`: `current_node.items()` iterated into a
mapping, key by key. -/
def parse_matched_details_dict (current_node : Json) :
    Except PyRaise (List (String × PointsOfInterest)) := do
  let kvs ← pyItems current_node
  kvs.mapM (fun p => do
    let poi ← parse_points_of_interest p.2
    pure (p.1, poi))

/-- `_parse_category_event`. -/
def parse_category_event (current_node : Json) :
    Except PyRaise CategoryEvent := do
  let mcNode ← pyGetOpt current_node "MatchedCategories"
  let matched_categories ← parse_matched_categories_list mcNode
  let mdNode ← pyGetOpt current_node "MatchedDetails"
  let matched_details ← parse_matched_details_dict mdNode
  pure ⟨matched_categories, matched_details⟩

/-- `_parse_event_exception`: reflective class lookup of the
`:exception-type` header (default attribute name `"ServiceException"`),
`json.loads` of the payload with `ValueError` caught into `{}`, message from
the `Message` key with a generic default, then single-argument
construction. -/
def parse_event_exception (raw_event : RawEvent) :
    Except PyRaise ServiceException := do
  let exception_type :=
    (headerGet raw_event.headers ":exception-type").getD "ServiceException"
  let exception_cls := getattr_transcribe_exceptions exception_type
  let raw_body :=
    match raw_event.payload with
    | some j => j
    | none => Json.obj []
  let exception_msg ←
    pyGet raw_body "Message" (Json.str "An unknown service exception occured")
  construct1 exception_cls exception_msg

/-- `TranscribeStreamingEventParser.parse`: dispatch on `:message-type`;
`error`/`exception` frames raise the constructed service exception, `event`
frames decode the payload (`json.loads` runs before the event type is
examined) and branch on `:event-type`, every other message type falls
through to `None`. -/
def parse (raw_event : RawEvent) : Except PyRaise (Option BaseEvent) := do
  let message_type := headerGet raw_event.headers ":message-type"
  if message_type = some "error" ∨ message_type = some "exception" then do
    let exc ← parse_event_exception raw_event
    throw (.raised exc)
  else if message_type = some "event" then do
    let event_type := headerGet raw_event.headers ":event-type"
    let raw_body ←
      match raw_event.payload with
      | some j => pure j
      | none => throw PyRaise.jsonDecodeError
    if event_type = some "TranscriptEvent" then do
      let e ← parse_transcript_event raw_body
      pure (some (.transcriptEvent e))
    else if event_type = some "UtteranceEvent" then do
      let e ← parse_utterance_event raw_body
      pure (some (.utteranceEvent e))
    else if event_type = some "CategoryEvent" then do
      let e ← parse_category_event raw_body
      pure (some (.categoryEvent e))
    else
      pure none
  else
    pure none

end TranscribeStreamingEventParser

/-- `model.AudioEvent`: an opaque byte payload (bytes as a list of byte
values). -/
structure AudioEvent where
  payload : List Nat

namespace AudioEventSerializer

/-- `AudioEventSerializer.serialize` (identical in
`src/amazon_transcribe/serialize.py` and `src/transcribe/serialize.py`):
the fixed outbound event header mapping together with the event's payload,
unchanged. -/
def serialize (audio_event : AudioEvent) :
    List (String × String) × List Nat :=
  ([(":message-type", "event"),
    (":event-type", "AudioEvent"),
    (":content-type", "application/octet-stream")],
   audio_event.payload)

end AudioEventSerializer

/-- The closed set of specifically-handled error-code strings, in the order
of `parse_exception`'s chain. -/
def exception_code_table : List String :=
  ["BadRequestException", "ConflictException", "InternalFailureException",
   "LimitExceededException", "ServiceUnavailableException",
   "SerializationException"]

/-- Spec-side definition (following §4.2's words, to be compared with the
code's `get_error_code`): the error code truncated at the first `:` when one
is present. -/
def spec_truncate_error_code (v : String) : String :=
  String.mk (v.toList.takeWhile (fun c => c != ':'))

/-- Spec-side definition (§4.2's fixed kind table): error-code string to
exception-variant constructor. -/
def spec_kind_table : List (String × (Json → ServiceException)) :=
  [("BadRequestException", ServiceException.badRequestException),
   ("ConflictException", ServiceException.conflictException),
   ("InternalFailureException", ServiceException.internalFailureException),
   ("LimitExceededException", ServiceException.limitExceededException),
   ("ServiceUnavailableException", ServiceException.serviceUnavailableException),
   ("SerializationException", ServiceException.serializationException)]

/-- Spec-side definition (§4.2's words): look the code up in the fixed kind
table; on no match return the Unknown variant carrying the code string and
the HTTP status code. -/
def spec_classify (error_code : String) (status : Int) (message : Json) :
    ServiceException :=
  match spec_kind_table.find? (fun p => error_code == p.1) with
  | some p => p.2 message
  | none => .unknownServiceException status error_code message

theorem exceptBind_ok {α β ε : Type} (a : α) (f : α → Except ε β) :
    (Except.ok a >>= f) = f a := rfl

theorem exceptBind_error {α β ε : Type} (x : ε) (f : α → Except ε β) :
    ((Except.error x : Except ε α) >>= f) = Except.error x := rfl

theorem exceptThrow_def {α ε : Type} (x : ε) :
    (throw x : Except ε α) = Except.error x := rfl

theorem exceptPure_def {α ε : Type} (a : α) :
    (pure a : Except ε α) = Except.ok a := rfl

theorem pySplit_ne_nil (sep : Char) (l : List Char) : pySplit sep l ≠ [] := by
  induction l with
  | nil => simp [pySplit]
  | cons c cs ih =>
    simp only [pySplit]
    split
    · simp
    · split
      · simp
      · simp

theorem pySplit_headD (sep : Char) (l : List Char) :
    (pySplit sep l).headD [] = l.takeWhile (fun c => c != sep) := by
  induction l with
  | nil => rfl
  | cons c cs ih =>
    by_cases h : c = sep
    · simp [pySplit, h, List.takeWhile]
    · have hb : (c != sep) = true := bne_iff_ne.mpr h
      simp only [pySplit, if_neg h]
      rcases hsplit : pySplit sep cs with _ | ⟨r, rs⟩
      · exact absurd hsplit (pySplit_ne_nil sep cs)
      · rw [hsplit] at ih
        simp only [List.headD_cons] at ih
        simp [List.takeWhile, hb, ih]

theorem get_error_code_truncates (status : Int)
    (headers : List (String × String)) (v : String)
    (hv : headerGet headers "x-amzn-errortype" = some v) :
    TranscribeStreamingResponseParser.get_error_code ⟨status, headers⟩ =
      spec_truncate_error_code v := by
  simp only [TranscribeStreamingResponseParser.get_error_code, hv,
             spec_truncate_error_code]
  exact congrArg String.mk (pySplit_headD ':' v.toList)

theorem parse_exception_classifies (r : Response) (body : Option Json)
    (m : Json)
    (h : TranscribeStreamingResponseParser.get_error_message body =
      Except.ok m) :
    TranscribeStreamingResponseParser.parse_exception r body =
      Except.ok (spec_classify
        (TranscribeStreamingResponseParser.get_error_code r)
        r.status_code m) := by
  generalize hc : TranscribeStreamingResponseParser.get_error_code r = code
  by_cases h1 : code = "BadRequestException"
  · subst h1
    simp [TranscribeStreamingResponseParser.parse_exception, hc, h,
          spec_classify, spec_kind_table]
  by_cases h2 : code = "ConflictException"
  · subst h2
    simp [TranscribeStreamingResponseParser.parse_exception, hc, h,
          spec_classify, spec_kind_table]
  by_cases h3 : code = "InternalFailureException"
  · subst h3
    simp [TranscribeStreamingResponseParser.parse_exception, hc, h,
          spec_classify, spec_kind_table]
  by_cases h4 : code = "LimitExceededException"
  · subst h4
    simp [TranscribeStreamingResponseParser.parse_exception, hc, h,
          spec_classify, spec_kind_table]
  by_cases h5 : code = "ServiceUnavailableException"
  · subst h5
    simp [TranscribeStreamingResponseParser.parse_exception, hc, h,
          spec_classify, spec_kind_table]
  by_cases h6 : code = "SerializationException"
  · subst h6
    simp [TranscribeStreamingResponseParser.parse_exception, hc, h,
          spec_classify, spec_kind_table]
  · have b1 : (code == "BadRequestException") = false := beq_eq_false_iff_ne.mpr h1
    have b2 : (code == "ConflictException") = false := beq_eq_false_iff_ne.mpr h2
    have b3 : (code == "InternalFailureException") = false :=
      beq_eq_false_iff_ne.mpr h3
    have b4 : (code == "LimitExceededException") = false :=
      beq_eq_false_iff_ne.mpr h4
    have b5 : (code == "ServiceUnavailableException") = false :=
      beq_eq_false_iff_ne.mpr h5
    have b6 : (code == "SerializationException") = false :=
      beq_eq_false_iff_ne.mpr h6
    simp [TranscribeStreamingResponseParser.parse_exception, hc, h,
          spec_classify, spec_kind_table, List.find?, h1, h2, h3, h4, h5, h6,
          b1, b2, b3, b4, b5, b6]

theorem get_error_message_obj (fs : List (String × Json)) (m : Json)
    (hm : jsonLookup fs "Message" = some m) :
    TranscribeStreamingResponseParser.get_error_message (some (Json.obj fs)) =
      Except.ok m := by
  simp only [TranscribeStreamingResponseParser.get_error_message, pyIn,
             pySubscript, hm]
  rfl

/-- C1, counterexample: a frame with message-type `exception`, an
exception-type `NovelException` that is not in the kind table, and payload
`Message: "hi"` raises a base-class `ServiceException` (kind not `Unknown`)
carrying the payload's message (not a generic one), contrary to the claim's
Unknown-kind generic-message fallback. -/
theorem C1_exception_dispatch_counterexample :
    TranscribeStreamingEventParser.parse
      ⟨[(":message-type", "exception"), (":exception-type", "NovelException")],
       some (Json.obj [("Message", Json.str "hi")])⟩ =
      Except.error (PyRaise.raised
        (ServiceException.serviceException (Json.str "hi")))
    ∧ ServiceException.kind (ServiceException.serviceException (Json.str "hi")) ≠
      ExceptionKind.unknown
    ∧ ServiceException.message
        (ServiceException.serviceException (Json.str "hi")) = Json.str "hi" :=
  ⟨rfl, by decide, rfl⟩

/-- C1, amended: dispatch of an `error`/`exception` frame fails by raising
(not returning) the exception built by resolving the `:exception-type` name
by attribute lookup against the exceptions namespace — a lookup that sends
the six table names to their classes — with the base `ServiceException`
class (not an Unknown variant) as fallback for unrecognized names; the
message is the payload object's `Message` value when present (also for
unrecognized names), and the generic message only when the payload is
unparsable or lacks `Message`; one-argument construction of
`UnknownServiceException` (which raises `TypeError`) is excluded.  In
particular the BadRequest example of the claim holds. -/
theorem C1_exception_dispatch_amended
    (headers : List (String × String)) (payload : Option Json)
    (mt et : String) (m : Json) (e : ServiceException)
    (hmt : headerGet headers ":message-type" = some mt)
    (hmtv : mt = "error" ∨ mt = "exception")
    (het : headerGet headers ":exception-type" = some et)
    (hmsg : pyGet (payload.getD (Json.obj []))
      "Message" (Json.str "An unknown service exception occured") =
        Except.ok m)
    (hcons : construct1 (getattr_transcribe_exceptions et) m = Except.ok e) :
    TranscribeStreamingEventParser.parse ⟨headers, payload⟩ =
      Except.error (PyRaise.raised e)
    ∧ exception_code_table.map getattr_transcribe_exceptions =
      [ExceptionClass.badRequestCls, ExceptionClass.conflictCls,
       ExceptionClass.internalFailureCls, ExceptionClass.limitExceededCls,
       ExceptionClass.serviceUnavailableCls, ExceptionClass.serializationCls]
    ∧ TranscribeStreamingEventParser.parse
        ⟨[(":message-type", "exception"),
          (":exception-type", "BadRequestException")],
         some (Json.obj [("Message", Json.str "bad input")])⟩ =
      Except.error (PyRaise.raised
        (ServiceException.badRequestException (Json.str "bad input"))) := by
  refine ⟨?_, by decide, rfl⟩
  rcases hmtv with rfl | rfl <;> cases payload <;>
    simp only [Option.getD_some, Option.getD_none] at hmsg <;>
    simp [TranscribeStreamingEventParser.parse,
          TranscribeStreamingEventParser.parse_event_exception,
          hmt, het, hmsg, hcons, exceptBind_ok, exceptThrow_def]

/-- C1, witness for the amended theorem at the claim's own example frame. -/
theorem C1_exception_dispatch_witness :
    TranscribeStreamingEventParser.parse
      ⟨[(":message-type", "exception"),
        (":exception-type", "BadRequestException")],
       some (Json.obj [("Message", Json.str "bad input")])⟩ =
      Except.error (PyRaise.raised
        (ServiceException.badRequestException (Json.str "bad input")))
    ∧ exception_code_table.map getattr_transcribe_exceptions =
      [ExceptionClass.badRequestCls, ExceptionClass.conflictCls,
       ExceptionClass.internalFailureCls, ExceptionClass.limitExceededCls,
       ExceptionClass.serviceUnavailableCls, ExceptionClass.serializationCls]
    ∧ TranscribeStreamingEventParser.parse
        ⟨[(":message-type", "exception"),
          (":exception-type", "BadRequestException")],
         some (Json.obj [("Message", Json.str "bad input")])⟩ =
      Except.error (PyRaise.raised
        (ServiceException.badRequestException (Json.str "bad input"))) :=
  C1_exception_dispatch_amended
    [(":message-type", "exception"), (":exception-type", "BadRequestException")]
    (some (Json.obj [("Message", Json.str "bad input")]))
    "exception" "BadRequestException" (Json.str "bad input")
    (ServiceException.badRequestException (Json.str "bad input"))
    rfl (Or.inr rfl) rfl rfl rfl

/-- C2, counterexample: a frame with message-type `event`, an unrecognized
event-type and an unparsable payload raises a JSON decode error instead of
yielding the silent `None`, because `json.loads` runs before the event type
is examined. -/
theorem C2_unrecognized_event_type_counterexample :
    TranscribeStreamingEventParser.parse
      ⟨[(":message-type", "event"), (":event-type", "WeirdEvent")], none⟩ =
      Except.error PyRaise.jsonDecodeError := rfl

/-- C2, amended: for frames with message-type `event`, an `:event-type`
outside the recognized set and a payload that `json.loads` accepts, dispatch
yields no event and raises no error; the unparsable-payload case raises. -/
theorem C2_unrecognized_event_type_amended
    (headers : List (String × String)) (j : Json)
    (h1 : headerGet headers ":message-type" = some "event")
    (h2 : headerGet headers ":event-type" ≠ some "TranscriptEvent")
    (h3 : headerGet headers ":event-type" ≠ some "UtteranceEvent")
    (h4 : headerGet headers ":event-type" ≠ some "CategoryEvent") :
    TranscribeStreamingEventParser.parse ⟨headers, some j⟩ =
      Except.ok none := by
  simp [TranscribeStreamingEventParser.parse, h1, h2, h3, h4, exceptPure_def,
        exceptBind_ok]

/-- C2, witness for the amended theorem. -/
theorem C2_unrecognized_event_type_witness :
    TranscribeStreamingEventParser.parse
      ⟨[(":message-type", "event"), (":event-type", "WeirdEvent")],
       some (Json.str "x")⟩ = Except.ok none :=
  C2_unrecognized_event_type_amended
    [(":message-type", "event"), (":event-type", "WeirdEvent")] (Json.str "x")
    rfl (by decide) (by decide) (by decide)

/-- C3, counterexample: a TranscriptEvent frame whose single Alternative has
no `Items` key makes the whole dispatch fail with a `TypeError` (iterating
`None`), instead of producing the claimed no-list sentinel without failing. -/
theorem C3_absent_items_counterexample :
    TranscribeStreamingEventParser.parse
      ⟨[(":message-type", "event"), (":event-type", "TranscriptEvent")],
       some (Json.obj [("Transcript", Json.obj [("Results",
         Json.arr [Json.obj [("Alternatives",
           Json.arr [Json.obj []])]])])])⟩ =
      Except.error PyRaise.typeError := rfl

/-- C3, amended: nested parsing is null-tolerant for every listed key except
an Alternative's `Items`: absent scalar keys become unset (`null`) values,
absent `Alternatives` / `Entities` / `LanguageIdentification` keys become the
`none` sentinel, distinct from the empty list that a present-but-empty list
parses to, and a Result-level payload with those keys absent parses without
failing; but `Items` has no `None` guard, so an Alternative without it fails
with `TypeError` (the wire contract always sends `Items`), while a
present-but-empty `Items` parses to the empty list. -/
theorem C3_null_tolerance_amended (fs : List (String × Json))
    (h1 : jsonLookup fs "Alternatives" = none)
    (h2 : jsonLookup fs "LanguageIdentification" = none) :
    TranscribeStreamingEventParser.parse_result (Json.obj fs) =
      Except.ok ⟨(jsonLookup fs "ResultId").getD Json.null,
        (jsonLookup fs "StartTime").getD Json.null,
        (jsonLookup fs "EndTime").getD Json.null,
        (jsonLookup fs "IsPartial").getD Json.null,
        none,
        (jsonLookup fs "ChannelId").getD Json.null,
        Json.null,
        none⟩
    ∧ TranscribeStreamingEventParser.parse_alternative_list Json.null =
      Except.ok none
    ∧ TranscribeStreamingEventParser.parse_entity_list Json.null =
      Except.ok none
    ∧ TranscribeStreamingEventParser.parse_language_identification_list
        Json.null = Except.ok none
    ∧ TranscribeStreamingEventParser.parse_alternative_list (Json.arr []) =
      Except.ok (some [])
    ∧ TranscribeStreamingEventParser.parse_entity_list (Json.arr []) =
      Except.ok (some [])
    ∧ TranscribeStreamingEventParser.parse_item_list (Json.arr []) =
      Except.ok []
    ∧ TranscribeStreamingEventParser.parse_alternative_list (Json.arr []) ≠
      TranscribeStreamingEventParser.parse_alternative_list Json.null
    ∧ TranscribeStreamingEventParser.parse_item_list Json.null =
      Except.error PyRaise.typeError := by
  refine ⟨?_, rfl, rfl, rfl, rfl, rfl, rfl, ?_, rfl⟩
  · simp [TranscribeStreamingEventParser.parse_result, pyGetOpt, pyGet,
          h1, h2, TranscribeStreamingEventParser.parse_alternative_list,
          TranscribeStreamingEventParser.parse_language_identification_list,
          exceptBind_ok, exceptPure_def]
  · intro h
    have h' : (Except.ok (some ([] : List Alternative)) :
        Except PyRaise (Option (List Alternative))) = Except.ok none := h
    injection h' with h2
    exact Option.noConfusion h2

/-- C3, witness for the amended theorem at the empty Result payload. -/
theorem C3_null_tolerance_witness :
    TranscribeStreamingEventParser.parse_result (Json.obj []) =
      Except.ok ⟨Json.null, Json.null, Json.null, Json.null, none, Json.null,
        Json.null, none⟩
    ∧ TranscribeStreamingEventParser.parse_alternative_list Json.null =
      Except.ok none
    ∧ TranscribeStreamingEventParser.parse_entity_list Json.null =
      Except.ok none
    ∧ TranscribeStreamingEventParser.parse_language_identification_list
        Json.null = Except.ok none
    ∧ TranscribeStreamingEventParser.parse_alternative_list (Json.arr []) =
      Except.ok (some [])
    ∧ TranscribeStreamingEventParser.parse_entity_list (Json.arr []) =
      Except.ok (some [])
    ∧ TranscribeStreamingEventParser.parse_item_list (Json.arr []) =
      Except.ok []
    ∧ TranscribeStreamingEventParser.parse_alternative_list (Json.arr []) ≠
      TranscribeStreamingEventParser.parse_alternative_list Json.null
    ∧ TranscribeStreamingEventParser.parse_item_list Json.null =
      Except.error PyRaise.typeError :=
  C3_null_tolerance_amended [] rfl rfl

/-- C4, counterexample: with a body that decodes to the JSON number 5,
`parse_exception` raises a `TypeError` (propagated from message extraction)
instead of returning the matching exception variant, so the claim fails for
this response-body pair. -/
theorem C4_exception_mapper_counterexample :
    TranscribeStreamingResponseParser.parse_exception
      ⟨400, [("x-amzn-errortype", "BadRequestException")]⟩
      (some (Json.num 5)) = Except.error PyRaise.typeError := rfl

/-- C4, amended: restricted to bodies on which message extraction returns
(bodies that decode to a JSON object or fail to decode — see C5's bug),
`parse_exception` extracts the error code from the `x-amzn-errortype`
header truncated at the first `:`, classifies it case-sensitively through
the fixed kind table, and on no match returns the Unknown variant carrying
the truncated code string and the HTTP status code. -/
theorem C4_exception_mapper_amended (status : Int)
    (headers : List (String × String)) (body : Option Json) (m : Json)
    (v : String)
    (h : TranscribeStreamingResponseParser.get_error_message body =
      Except.ok m)
    (hv : headerGet headers "x-amzn-errortype" = some v) :
    TranscribeStreamingResponseParser.parse_exception ⟨status, headers⟩ body =
      Except.ok (spec_classify (spec_truncate_error_code v) status m)
    ∧ TranscribeStreamingResponseParser.get_error_code ⟨status, headers⟩ =
      spec_truncate_error_code v := by
  have ht := get_error_code_truncates status headers v hv
  have hcl := parse_exception_classifies ⟨status, headers⟩ body m h
  rw [ht] at hcl
  exact ⟨hcl, ht⟩

/-- C4, witness for the amended theorem: a colon-suffixed recognized code
with an unparsable body. -/
theorem C4_exception_mapper_witness :
    TranscribeStreamingResponseParser.parse_exception
      ⟨400, [("x-amzn-errortype", "BadRequestException:extra")]⟩ none =
      Except.ok (spec_classify
        (spec_truncate_error_code "BadRequestException:extra") 400
        (Json.str "An unknown error was returned by the service"))
    ∧ TranscribeStreamingResponseParser.get_error_code
        ⟨400, [("x-amzn-errortype", "BadRequestException:extra")]⟩ =
      spec_truncate_error_code "BadRequestException:extra" :=
  C4_exception_mapper_amended 400
    [("x-amzn-errortype", "BadRequestException:extra")] none
    (Json.str "An unknown error was returned by the service")
    "BadRequestException:extra" rfl rfl

/-- C5: the failing input for the code bug — a body that decodes to the
JSON number 5 makes message extraction raise a `TypeError` at
`"Message" in parsed_body`, although the claim (and the spec) require the
extraction never to raise. -/
theorem C5_message_extraction_raises :
    TranscribeStreamingResponseParser.get_error_message
      (some (Json.num 5)) = Except.error PyRaise.typeError := rfl

/-- C6: a frame with message-type `event`, event-type `TranscriptEvent` and
payload `Transcript.Results = []` dispatches to exactly one TranscriptEvent
whose transcript has the empty results list. -/
theorem C6_transcript_event_empty_results :
    TranscribeStreamingEventParser.parse
      ⟨[(":message-type", "event"), (":event-type", "TranscriptEvent")],
       some (Json.obj [("Transcript", Json.obj [("Results", Json.arr [])])])⟩ =
      Except.ok (some (BaseEvent.transcriptEvent ⟨⟨[]⟩⟩)) := rfl

/-- C7, counterexample: on the identifier `FooException` with an unparsable
body, the HTTP path returns an Unknown-kind exception with the message
`An unknown error was returned by the service`, while the in-stream path
raises a base-kind exception with the different message
`An unknown service exception occured` — different kinds, so the two
classifications are not the same. -/
theorem C7_path_parity_counterexample :
    TranscribeStreamingResponseParser.parse_exception
      ⟨500, [("x-amzn-errortype", "FooException")]⟩ none =
      Except.ok (ServiceException.unknownServiceException 500 "FooException"
        (Json.str "An unknown error was returned by the service"))
    ∧ TranscribeStreamingEventParser.parse
        ⟨[(":message-type", "exception"), (":exception-type", "FooException")],
         none⟩ =
      Except.error (PyRaise.raised (ServiceException.serviceException
        (Json.str "An unknown service exception occured")))
    ∧ ServiceException.kind
        (ServiceException.unknownServiceException 500 "FooException"
          (Json.str "An unknown error was returned by the service")) ≠
      ServiceException.kind (ServiceException.serviceException
        (Json.str "An unknown service exception occured")) :=
  ⟨rfl, rfl, by decide⟩

/-- C7, amended: the two paths agree — same exception class and same
message — when the identifier is one of the six table names and the body
decodes to a JSON object containing a `Message` key; outside this common
core they diverge (different fallback class, different generic message,
and only the HTTP path reads a lowercase `message` key). -/
theorem C7_path_parity_amended (status : Int) (code : String)
    (fs : List (String × Json)) (m : Json)
    (hcode : code ∈ exception_code_table)
    (hm : jsonLookup fs "Message" = some m) :
    TranscribeStreamingResponseParser.parse_exception
      ⟨status, [("x-amzn-errortype", code)]⟩ (some (Json.obj fs)) =
      Except.ok (spec_classify code status m)
    ∧ TranscribeStreamingEventParser.parse
        ⟨[(":message-type", "exception"), (":exception-type", code)],
         some (Json.obj fs)⟩ =
      Except.error (PyRaise.raised (spec_classify code status m)) := by
  have hmsg := get_error_message_obj fs m hm
  simp only [exception_code_table, List.mem_cons, List.mem_singleton,
             List.not_mem_nil, or_false] at hcode
  rcases hcode with rfl | rfl | rfl | rfl | rfl | rfl <;>
    exact ⟨parse_exception_classifies _ _ m hmsg,
      by simp [TranscribeStreamingEventParser.parse,
               TranscribeStreamingEventParser.parse_event_exception,
               headerGet, pyGet, hm, spec_classify, spec_kind_table,
               getattr_transcribe_exceptions, construct1,
               exceptBind_ok, exceptThrow_def]⟩

/-- C7, witness for the amended theorem. -/
theorem C7_path_parity_witness :
    TranscribeStreamingResponseParser.parse_exception
      ⟨400, [("x-amzn-errortype", "BadRequestException")]⟩
      (some (Json.obj [("Message", Json.str "bad")])) =
      Except.ok (spec_classify "BadRequestException" 400 (Json.str "bad"))
    ∧ TranscribeStreamingEventParser.parse
        ⟨[(":message-type", "exception"),
          (":exception-type", "BadRequestException")],
         some (Json.obj [("Message", Json.str "bad")])⟩ =
      Except.error (PyRaise.raised
        (spec_classify "BadRequestException" 400 (Json.str "bad"))) :=
  C7_path_parity_amended 400 "BadRequestException"
    [("Message", Json.str "bad")] (Json.str "bad") (by decide) rfl

/-- C8: the outbound event encoder returns exactly the fixed header mapping
for an audio event together with the event's payload bytes unchanged. -/
theorem C8_audio_event_serialize (audio_event : AudioEvent) :
    AudioEventSerializer.serialize audio_event =
      ([(":message-type", "event"),
        (":event-type", "AudioEvent"),
        (":content-type", "application/octet-stream")],
       audio_event.payload) := rfl

/-- C8, witness at a concrete audio event. -/
theorem C8_audio_event_serialize_witness :
    AudioEventSerializer.serialize ⟨[0, 1, 2]⟩ =
      ([(":message-type", "event"),
        (":event-type", "AudioEvent"),
        (":content-type", "application/octet-stream")],
       [0, 1, 2]) :=
  C8_audio_event_serialize ⟨[0, 1, 2]⟩

/-- C9: a raw event whose `:message-type` header is absent or anything other
than `error`, `exception` or `event` dispatches to `None` without raising. -/
theorem C9_other_message_types_silent (raw_event : RawEvent)
    (h1 : headerGet raw_event.headers ":message-type" ≠ some "error")
    (h2 : headerGet raw_event.headers ":message-type" ≠ some "exception")
    (h3 : headerGet raw_event.headers ":message-type" ≠ some "event") :
    TranscribeStreamingEventParser.parse raw_event = Except.ok none := by
  simp [TranscribeStreamingEventParser.parse, h1, h2, h3, exceptPure_def]

/-- C9, witness: an unrecognized message type with an unparsable payload. -/
theorem C9_other_message_types_silent_witness :
    TranscribeStreamingEventParser.parse
      ⟨[(":message-type", "signal")], none⟩ = Except.ok none :=
  C9_other_message_types_silent ⟨[(":message-type", "signal")], none⟩
    (by decide) (by decide) (by decide)

/-- C10, counterexample: without an `x-amzn-errortype` header but with a
body decoding to the JSON boolean `true`, `parse_exception` raises a
`TypeError` instead of returning the claimed `UnknownServiceException`. -/
theorem C10_missing_header_counterexample :
    TranscribeStreamingResponseParser.parse_exception ⟨503, []⟩
      (some (Json.bool true)) = Except.error PyRaise.typeError := rfl

/-- C10, amended: restricted to bodies on which message extraction returns
(see C5's bug), a response without an `x-amzn-errortype` header classifies
to `UnknownServiceException` with the literal code `Unknown`, the response's
status code, and the extracted (or generic fallback) message. -/
theorem C10_missing_header_amended (status : Int)
    (headers : List (String × String)) (body : Option Json) (m : Json)
    (hh : headerGet headers "x-amzn-errortype" = none)
    (hm : TranscribeStreamingResponseParser.get_error_message body =
      Except.ok m) :
    TranscribeStreamingResponseParser.parse_exception ⟨status, headers⟩ body =
      Except.ok (ServiceException.unknownServiceException status "Unknown" m) := by
  simp [TranscribeStreamingResponseParser.parse_exception,
        TranscribeStreamingResponseParser.get_error_code, hh, hm,
        exceptBind_ok, exceptPure_def]

/-- C10, witness: empty headers and an unparsable body. -/
theorem C10_missing_header_witness :
    TranscribeStreamingResponseParser.parse_exception ⟨503, []⟩ none =
      Except.ok (ServiceException.unknownServiceException 503 "Unknown"
        (Json.str "An unknown error was returned by the service")) :=
  C10_missing_header_amended 503 [] none
    (Json.str "An unknown error was returned by the service") rfl rfl

end AmazonTranscribe
